import Mathlib

/-!
Verification of the check/incident gating backend (src/backend/server.js)
against its natural-language specification.

The backend is shallowly embedded: the SQLite tables become lists of
records, each Express route handler becomes a pure function from the
store, session and request body to a response, and the server-assigned
ISO timestamps become naturals (ISO-8601 strings compare
lexicographically, which agrees with the numeric order used here).
-/

namespace Hygieia

/-- A row of the `restrooms` table (server.js, CREATE TABLE restrooms). -/
structure Restroom where
  id : String
  name : String
  building : String
  floor : Nat
deriving DecidableEq, Repr

/-- A row of the `custodians` table (server.js, CREATE TABLE custodians). -/
structure Custodian where
  id : String
  name : String
  gender : Option String
deriving DecidableEq, Repr

/-- A row of the `checks` table (server.js, CREATE TABLE checks). -/
structure Check where
  id : String
  custodianId : String
  restroomId : String
  timestamp : Nat
  notes : String
deriving DecidableEq, Repr

/-- A row of the `incidents` table (server.js, CREATE TABLE incidents).
`pending` is stored as INTEGER 0/1 in SQLite and modelled as `Bool`. -/
structure Incident where
  id : String
  custodianId : String
  restroomId : String
  description : String
  severity : String
  timestamp : Nat
  pending : Bool
  resolvedAt : Option Nat
  lastCheckedAt : Option Nat
deriving DecidableEq, Repr

/-- The column names of the `incidents` table, copied from the
CREATE TABLE statement in server.js (lines 97-109). -/
def incidentsColumns : List String :=
  ["id", "custodianId", "restroomId", "description", "severity",
   "timestamp", "pending", "resolvedAt", "lastCheckedAt"]

/-- The persistent store: the four data tables of the SQLite database. -/
structure Store where
  restrooms : List Restroom
  custodians : List Custodian
  checks : List Check
  incidents : List Incident
deriving DecidableEq, Repr

/-- An express-session record: the two boolean capabilities the code
reads (`req.session.isAuthenticated`, `req.session.isAdmin`), plus a
flag recording whether `req.session.destroy()` has invalidated the
session identity. -/
structure Session where
  isAuthenticated : Bool
  isAdmin : Bool
  destroyed : Bool
deriving DecidableEq, Repr

/-- The request body: every field any handler destructures from
`req.body`.  `none` models an absent (undefined) field. -/
structure Body where
  custodianId : Option String
  restroomId : Option String
  notes : Option String
  description : Option String
  severity : Option String
  incidentId : Option String
  password : Option String
deriving DecidableEq, Repr

/-- Environment configuration the handlers read from `process.env`:
the two shared secrets, and whether SMTP mail plus the admin address
are configured.  `emailSucceeds` models the nondeterministic outcome
of `mailTransport.sendMail`. -/
structure Env where
  userPassword : Option String
  adminPassword : Option String
  mailConfigured : Bool
  adminEmailSet : Bool
  emailSucceeds : Bool
deriving DecidableEq, Repr

/-- Outcome of the best-effort incident email (server.js
`sendIncidentEmail`): not attempted when mail or the admin address is
unconfigured, otherwise sent or failed-and-logged. -/
inductive EmailOutcome where
  | notAttempted
  | sent
  | failed
deriving DecidableEq, Repr

/-- The observable response of a route handler: HTTP status, the store
and session after the request, the email outcome, the `id` echoed in a
201 body, and the row list returned by GET /api/checks. -/
structure Resp where
  status : Nat
  store : Store
  session : Session
  email : EmailOutcome
  returnedId : Option String
  payloadChecks : List Check
deriving DecidableEq, Repr

/-- JavaScript string coercion of a possibly-absent body field:
an absent field and the empty string are both falsy. -/
def jstr : Option String → String
  | none => ""
  | some s => s

/-- JS `a || b` over possibly-absent env strings (used by
`process.env.USER_PASSWORD || process.env.ADMIN_PASSWORD || ''`). -/
def firstTruthy (a b : Option String) : String :=
  if jstr a = "" then jstr b else jstr a

/-- JS `x || d` for a body string with a default (`severity || 'medium'`). -/
def jsOr (x : Option String) (d : String) : String :=
  if jstr x = "" then d else jstr x

/-- Response carrying no data and no mutation. -/
def baseResp (status : Nat) (s : Store) (sess : Session) : Resp :=
  { status := status, store := s, session := sess,
    email := .notAttempted, returnedId := none, payloadChecks := [] }

/-- `isAuthenticated` middleware (server.js lines 311-317): pass
through when the session has the flag, else 401 with no effect. -/
def requireAuth (s : Store) (sess : Session) (r : Resp) : Resp :=
  if sess.isAuthenticated then r else baseResp 401 s sess

/-- `isAdmin` middleware (server.js lines 320-326): pass through when
the session has the admin flag, else 403 with no effect. -/
def requireAdmin (s : Store) (sess : Session) (r : Resp) : Resp :=
  if sess.isAdmin then r else baseResp 403 s sess

/-- `SELECT timestamp FROM checks WHERE restroomId = ? ORDER BY
timestamp DESC LIMIT 1` (server.js lines 550-555): the greatest
timestamp among the restroom's checks, if any. -/
def lastCheckTimestamp (s : Store) (rid : String) : Option Nat :=
  ((s.checks.filter (fun c => c.restroomId == rid)).map (fun c => c.timestamp)).max?

/-- The gating predicate of the spec: a check may be logged iff no
pending incident exists for the restroom.  Embeds the query
`SELECT * FROM incidents WHERE restroomId = ? AND pending = 1`
(server.js lines 485-487) producing no row. -/
def canLogCheck (s : Store) (rid : String) : Bool :=
  !(s.incidents.any (fun i => i.restroomId == rid && i.pending))

/-- GET /api/health (server.js lines 331-333). -/
def healthHandler (s : Store) (sess : Session) : Resp :=
  baseResp 200 s sess

/-- GET /api/events (server.js lines 336-348): registers an SSE
listener; no auth middleware, no store mutation, 200 stream. -/
def eventsHandler (s : Store) (sess : Session) : Resp :=
  baseResp 200 s sess

/-- POST /api/auth/login (server.js lines 351-369). -/
def authLoginHandler (env : Env) (s : Store) (sess : Session) (b : Body) : Resp :=
  let password := (jstr b.password).trim
  let userPassword := (firstTruthy env.userPassword env.adminPassword).trim
  if userPassword = "" then baseResp 500 s sess
  else if password ≠ "" ∧ password = userPassword then
    baseResp 200 s { sess with isAuthenticated := true }
  else baseResp 401 s sess

/-- POST /api/auth/logout (server.js lines 372-384): clears both flags
and destroys the session; always 200. -/
def authLogoutHandler (s : Store) (_sess : Session) : Resp :=
  baseResp 200 s { isAuthenticated := false, isAdmin := false, destroyed := true }

/-- GET /api/auth/status and GET /api/admin/status (server.js lines
387-401): pure reads. -/
def statusHandler (s : Store) (sess : Session) : Resp :=
  baseResp 200 s sess

/-- POST /api/admin/login (server.js lines 404-422). -/
def adminLoginHandler (env : Env) (s : Store) (sess : Session) (b : Body) : Resp :=
  let password := (jstr b.password).trim
  let adminPassword := (jstr env.adminPassword).trim
  if adminPassword = "" then baseResp 500 s sess
  else if password ≠ "" ∧ password = adminPassword then
    baseResp 200 s { sess with isAdmin := true }
  else baseResp 401 s sess

/-- POST /api/admin/logout (server.js lines 425-429): clears only the
admin flag; always 200. -/
def adminLogoutHandler (s : Store) (sess : Session) : Resp :=
  baseResp 200 s { sess with isAdmin := false }

/-- Checks kept by the inner joins of GET /api/checks (server.js lines
456-463): a check row survives `JOIN custodians ... JOIN restrooms`
iff both referenced rows exist. -/
def joinedChecks (s : Store) : List Check :=
  s.checks.filter (fun c =>
    s.custodians.any (fun cu => cu.id == c.custodianId) &&
    s.restrooms.any (fun r => r.id == c.restroomId))

/-- Descending timestamp order used by `ORDER BY c.timestamp DESC`. -/
def tsGE (a b : Check) : Bool :=
  b.timestamp ≤ a.timestamp

/-- The row list of GET /api/checks: join, order newest first,
`LIMIT 100` (server.js lines 456-463). -/
def getChecksList (s : Store) : List Check :=
  ((joinedChecks s).mergeSort tsGE).take 100

/-- GET /api/checks (server.js lines 454-469), behind `isAuthenticated`. -/
def getChecksHandler (s : Store) (sess : Session) : Resp :=
  { baseResp 200 s sess with payloadChecks := getChecksList s }

/-- Whether the checks INSERT of POST /api/checks throws: a duplicate
primary key, or a declared foreign key with no parent row — the
bundled SQLite of better-sqlite3 is compiled with default foreign-key
enforcement and server.js never disables it, so a custodianId or
restroomId absent from the parent tables fails the constraint. -/
def checkInsertFails (s : Store) (b : Body) (newId : String) : Bool :=
  s.checks.any (fun c => c.id == newId) ||
  !(s.custodians.any (fun cu => cu.id == jstr b.custodianId)) ||
  !(s.restrooms.any (fun r => r.id == jstr b.restroomId))

/-- POST /api/checks (server.js lines 472-517): validate the two ids,
reject with 403 when a pending incident exists for the restroom, else
run the INSERT — a duplicate primary key or a foreign-key violation
(constraints enforced at runtime) makes it throw, caught as 500 with
no row — and on success answer 201 with the new id. -/
def logCheckHandler (s : Store) (sess : Session) (b : Body) (now : Nat)
    (newId : String) : Resp :=
  let custodianId := jstr b.custodianId
  let restroomId := jstr b.restroomId
  if custodianId = "" ∨ restroomId = "" then baseResp 400 s sess
  else if s.incidents.any (fun i => i.restroomId == restroomId && i.pending) then
    baseResp 403 s sess
  else if checkInsertFails s b newId then baseResp 500 s sess
  else
    let c : Check :=
      { id := newId, custodianId := custodianId, restroomId := restroomId,
        timestamp := now, notes := jstr b.notes }
    { baseResp 201 s sess with
      store := { s with checks := s.checks ++ [c] },
      returnedId := some newId }

/-- `sendIncidentEmail` (server.js lines 217-236): resolves at once
when mail or ADMIN_EMAIL is unconfigured; otherwise the send either
succeeds or fails, and a failure is only logged. -/
def sendIncidentEmail (env : Env) : EmailOutcome :=
  if !env.mailConfigured ∨ !env.adminEmailSet then .notAttempted
  else if env.emailSucceeds then .sent else .failed

/-- The incident row built by the INSERT of POST /api/incidents
(server.js lines 557-561): pending = 1, resolvedAt NULL, and the
restroom's most recent check timestamp snapshotted as lastCheckedAt. -/
def newIncidentRow (s : Store) (b : Body) (now : Nat) (newId : String) : Incident :=
  { id := newId, custodianId := jstr b.custodianId, restroomId := jstr b.restroomId,
    description := jstr b.description, severity := jsOr b.severity "medium",
    timestamp := now, pending := true, resolvedAt := none,
    lastCheckedAt := lastCheckTimestamp s (jstr b.restroomId) }

/-- Whether the incidents INSERT of POST /api/incidents throws: a
duplicate primary key, or a custodianId/restroomId absent from the
parent tables (foreign keys enforced at runtime by the bundled
SQLite). -/
def incidentInsertFails (s : Store) (b : Body) (newId : String) : Bool :=
  s.incidents.any (fun i => i.id == newId) ||
  !(s.custodians.any (fun cu => cu.id == jstr b.custodianId)) ||
  !(s.restrooms.any (fun r => r.id == jstr b.restroomId))

/-- POST /api/incidents (server.js lines 537-595): validate the three
required fields, snapshot the restroom's most recent check timestamp,
run the INSERT of one incident row with pending = 1 — a duplicate
primary key or a foreign-key violation makes it throw, caught as 500
with no row — then attempt the best-effort email and answer 201 with
the new id. -/
def reportIncidentHandler (env : Env) (s : Store) (sess : Session) (b : Body)
    (now : Nat) (newId : String) : Resp :=
  if jstr b.custodianId = "" ∨ jstr b.restroomId = "" ∨ jstr b.description = "" then
    baseResp 400 s sess
  else if incidentInsertFails s b newId then baseResp 500 s sess
  else
    { baseResp 201 s sess with
      store := { s with incidents := s.incidents ++ [newIncidentRow s b now newId] },
      returnedId := some newId,
      email := sendIncidentEmail env }

/-- The row update of `UPDATE incidents SET pending = 0, resolvedAt = ?
WHERE id = ?` (server.js lines 606-610). -/
def resolveUpd (x : String) (now : Nat) (i : Incident) : Incident :=
  if i.id = x then { i with pending := false, resolvedAt := some now } else i

/-- POST /api/incidents/resolve (server.js lines 598-632), behind
`isAuthenticated` and `isAdmin`: 400 on a missing id, otherwise run the
UPDATE (which touches zero rows for an unknown id) and answer success. -/
def resolveIncidentHandler (s : Store) (sess : Session) (b : Body)
    (now : Nat) : Resp :=
  let incidentId := jstr b.incidentId
  if incidentId = "" then baseResp 400 s sess
  else
    { baseResp 200 s sess with
      store := { s with incidents := s.incidents.map (resolveUpd incidentId now) } }

/-- The routes of server.js. -/
inductive Endpoint where
  | health
  | events
  | authLogin
  | authLogout
  | authStatus
  | adminStatus
  | adminLogin
  | adminLogout
  | listRestrooms
  | listCustodians
  | listChecks
  | logCheck
  | listIncidents
  | reportIncident
  | resolveIncident
deriving DecidableEq, Repr

/-- The router: each endpoint with the middlewares server.js attaches
to it.  `now` is the server clock at the request, `newId` the generated
primary key for an insert. -/
def handle (ep : Endpoint) (env : Env) (s : Store) (sess : Session) (b : Body)
    (now : Nat) (newId : String) : Resp :=
  match ep with
  | .health => healthHandler s sess
  | .events => eventsHandler s sess
  | .authLogin => authLoginHandler env s sess b
  | .authLogout => authLogoutHandler s sess
  | .authStatus => statusHandler s sess
  | .adminStatus => statusHandler s sess
  | .adminLogin => adminLoginHandler env s sess b
  | .adminLogout => adminLogoutHandler s sess
  | .listRestrooms => requireAuth s sess (statusHandler s sess)
  | .listCustodians => requireAuth s sess (statusHandler s sess)
  | .listChecks => requireAuth s sess (getChecksHandler s sess)
  | .logCheck => requireAuth s sess (logCheckHandler s sess b now newId)
  | .listIncidents => requireAuth s sess (statusHandler s sess)
  | .reportIncident => requireAuth s sess (reportIncidentHandler env s sess b now newId)
  | .resolveIncident =>
      requireAuth s sess (requireAdmin s sess (resolveIncidentHandler s sess b now))

/-- The routes guarded by the `isAuthenticated` middleware in server.js. -/
def guardedEndpoints : List Endpoint :=
  [.listRestrooms, .listCustodians, .listChecks, .logCheck,
   .listIncidents, .reportIncident, .resolveIncident]

/-- The seed data inserted at startup (server.js `seedData`, lines
119-154), with empty checks and incidents tables. -/
def seedStore : Store :=
  { restrooms :=
      [⟨"boys-locker-room", "Boys Locker Room", "Athletics", 1⟩,
       ⟨"g-wing", "G Wing", "G Wing", 1⟩,
       ⟨"d-wing", "D Wing", "D Wing", 1⟩,
       ⟨"l-wing", "L Wing", "L Wing", 1⟩,
       ⟨"n-wing", "N Wing", "N Wing", 1⟩,
       ⟨"girls-locker-room", "Girls Locker Room", "Athletics", 1⟩,
       ⟨"h-wing", "H Wing", "H Wing", 1⟩,
       ⟨"j-wing", "J Wing", "J Wing", 1⟩,
       ⟨"c-wing", "C Wing", "C Wing", 1⟩,
       ⟨"e-wing", "E Wing", "E Wing", 1⟩,
       ⟨"m-wing", "M Wing", "M Wing", 1⟩],
    custodians :=
      [⟨"admin", "Admin", none⟩,
       ⟨"shantelle", "Shantelle", some "female"⟩,
       ⟨"jalessa", "Jalessa", some "female"⟩,
       ⟨"joel", "Joel", some "male"⟩,
       ⟨"javon", "Javon", some "male"⟩,
       ⟨"rey", "Rey", some "male"⟩],
    checks := [],
    incidents := [] }

/-- A configuration with mail unconfigured, used for concrete runs. -/
def env0 : Env :=
  { userPassword := some "pw", adminPassword := some "apw",
    mailConfigured := false, adminEmailSet := false, emailSucceeds := false }

/-- An empty request body. -/
def body0 : Body :=
  { custodianId := none, restroomId := none, notes := none,
    description := none, severity := none, incidentId := none, password := none }

/-- A staff session. -/
def authSess : Session := ⟨true, false, false⟩

/-- A staff session that also holds the admin capability. -/
def adminSess : Session := ⟨true, true, false⟩

/-- A session with neither capability. -/
def unauthSess : Session := ⟨false, false, false⟩

/-- Body of a check logged by a seeded custodian on a seeded restroom. -/
def bodyCheckJoel : Body :=
  { body0 with custodianId := some "joel", restroomId := some "g-wing" }

/-- An incident on g-wing already resolved at time 5. -/
def incResolved5 : Incident :=
  { id := "i1", custodianId := "joel", restroomId := "g-wing",
    description := "clog", severity := "medium", timestamp := 1,
    pending := false, resolvedAt := some 5, lastCheckedAt := none }

/-- The same incident after a second resolve at time 7. -/
def incResolved7 : Incident :=
  { incResolved5 with resolvedAt := some 7 }

/-- Seeded store plus one already-resolved incident on g-wing. -/
def storeResolved : Store :=
  { seedStore with incidents := [incResolved5] }

/-- Seeded store plus one pending incident on g-wing. -/
def storePending : Store :=
  { seedStore with incidents :=
      [{ id := "i1", custodianId := "joel", restroomId := "g-wing",
         description := "clog", severity := "medium", timestamp := 1,
         pending := true, resolvedAt := none, lastCheckedAt := none }] }

/-- Seeded store plus one prior check on g-wing. -/
def storeWithCheck : Store :=
  { seedStore with checks :=
      [{ id := "c1", custodianId := "joel", restroomId := "g-wing",
         timestamp := 3, notes := "" }] }

/-- A store holding one check whose custodian id matches no custodian
row, as POST /api/checks can create (no foreign-key enforcement). -/
def storeDangling : Store :=
  { restrooms := [⟨"g-wing", "G Wing", "G Wing", 1⟩],
    custodians := [],
    checks := [{ id := "c1", custodianId := "ghost", restroomId := "g-wing",
                 timestamp := 3, notes := "" }],
    incidents := [] }

/-- Resolve body naming the seeded incident `i1`. -/
def bodyResolveI1 : Body := { body0 with incidentId := some "i1" }

/-- Resolve body naming an id that exists in no store used here. -/
def bodyResolveNope : Body := { body0 with incidentId := some "nope" }

/-- Incident report by a seeded custodian on a seeded restroom. -/
def bodyIncidentJoel : Body :=
  { body0 with custodianId := some "joel", restroomId := some "g-wing",
               description := some "mess" }

/-- Incident report whose custodian id matches no seeded row. -/
def bodyIncidentGhost : Body :=
  { body0 with custodianId := some "ghost", restroomId := some "g-wing",
               description := some "mess" }

/-- Check logged with ids matching no seeded rows. -/
def bodyCheckGhost : Body :=
  { body0 with custodianId := some "ghost-cust", restroomId := some "ghost-room" }

/-- A configuration where mail is fully configured but the SMTP send
fails. -/
def envFail : Env :=
  { userPassword := some "pw", adminPassword := some "apw",
    mailConfigured := true, adminEmailSet := true, emailSucceeds := false }

/-- The pending-incident query of POST /api/checks answers true exactly
when a pending incident row for the restroom exists. -/
theorem any_pending_iff (s : Store) (rid : String) :
    (s.incidents.any (fun i => i.restroomId == rid && i.pending)) = true ↔
      ∃ i ∈ s.incidents, i.restroomId = rid ∧ i.pending = true := by
  simp [List.any_eq_true]

/-- C1: a check may be logged on a restroom iff no pending incident
exists for it.  With valid fields on an authenticated session — ids
that are non-empty and reference existing custodian and restroom rows,
so the INSERT satisfies the enforced foreign keys — and a fresh primary
key, POST /api/checks answers 403 and leaves the store untouched when a
pending incident for the restroom exists, and otherwise inserts exactly
one new check row and answers 201. -/
theorem logCheck_gating (env : Env) (s : Store) (sess : Session) (b : Body)
    (now : Nat) (newId : String)
    (hauth : sess.isAuthenticated = true)
    (hc : jstr b.custodianId ≠ "") (hr : jstr b.restroomId ≠ "")
    (hcust : (s.custodians.any (fun cu => cu.id == jstr b.custodianId)) = true)
    (hrest : (s.restrooms.any (fun r => r.id == jstr b.restroomId)) = true)
    (hfresh : ∀ c ∈ s.checks, c.id ≠ newId) :
    ((∃ i ∈ s.incidents, i.restroomId = jstr b.restroomId ∧ i.pending = true) →
      (handle .logCheck env s sess b now newId).status = 403 ∧
      (handle .logCheck env s sess b now newId).store = s) ∧
    ((¬ ∃ i ∈ s.incidents, i.restroomId = jstr b.restroomId ∧ i.pending = true) →
      (handle .logCheck env s sess b now newId).status = 201 ∧
      (handle .logCheck env s sess b now newId).store.checks =
        s.checks ++
          [{ id := newId, custodianId := jstr b.custodianId,
             restroomId := jstr b.restroomId, timestamp := now,
             notes := jstr b.notes }] ∧
      (handle .logCheck env s sess b now newId).store.incidents = s.incidents ∧
      (handle .logCheck env s sess b now newId).store.restrooms = s.restrooms ∧
      (handle .logCheck env s sess b now newId).store.custodians = s.custodians) := by
  have hdup : (s.checks.any (fun c => c.id == newId)) = false := by
    simp only [List.any_eq_false, beq_iff_eq]
    exact hfresh
  have hnofail : checkInsertFails s b newId = false := by
    simp [checkInsertFails, hdup, hcust, hrest]
  constructor
  · intro hex
    have hany : (s.incidents.any (fun i => i.restroomId == jstr b.restroomId && i.pending)) = true :=
      (any_pending_iff s (jstr b.restroomId)).mpr hex
    simp [handle, requireAuth, logCheckHandler, hauth, hc, hr, hany, baseResp]
  · intro hnex
    have hany : (s.incidents.any (fun i => i.restroomId == jstr b.restroomId && i.pending)) = false := by
      rw [← Bool.not_eq_true]
      exact fun h => hnex ((any_pending_iff s (jstr b.restroomId)).mp h)
    simp [handle, requireAuth, logCheckHandler, hauth, hc, hr, hany, hnofail, baseResp]

/-- Witness for C1: on the seeded store (no incidents) a check by a
seeded custodian on a seeded restroom is accepted with 201. -/
theorem logCheck_gating_witness :
    (handle .logCheck env0 seedStore authSess bodyCheckJoel 5 "check-1").status = 201 :=
  ((logCheck_gating env0 seedStore authSess bodyCheckJoel 5 "check-1"
      rfl (by decide) (by decide) (by decide) (by decide) (by decide)).2 (by decide)).1

/-- C7: POST /api/admin/logout clears only the admin flag, keeping the
authenticated flag and the session identity; POST /api/auth/logout
clears both flags and destroys the session identity.  Neither touches
any table of the store. -/
theorem logout_semantics (env : Env) (s : Store) (sess : Session) (b : Body)
    (now : Nat) (newId : String) :
    ((handle .adminLogout env s sess b now newId).session =
        { sess with isAdmin := false } ∧
      (handle .adminLogout env s sess b now newId).session.isAuthenticated =
        sess.isAuthenticated ∧
      (handle .adminLogout env s sess b now newId).session.destroyed =
        sess.destroyed ∧
      (handle .adminLogout env s sess b now newId).store = s) ∧
    ((handle .authLogout env s sess b now newId).session =
        { isAuthenticated := false, isAdmin := false, destroyed := true } ∧
      (handle .authLogout env s sess b now newId).store = s) :=
  ⟨⟨rfl, rfl, rfl, rfl⟩, ⟨rfl, rfl⟩⟩

/-- The resolve UPDATE touches no row when no incident has the id. -/
theorem map_resolveUpd_eq_self (l : List Incident) (x : String) (t : Nat)
    (h : ∀ i ∈ l, i.id ≠ x) : l.map (resolveUpd x t) = l := by
  induction l with
  | nil => rfl
  | cons a l ih =>
    simp only [List.map_cons]
    rw [resolveUpd, if_neg (h a (List.mem_cons_self a l)),
      ih (fun i hi => h i (List.mem_cons_of_mem a hi))]

/-- Counterexample to C3: resolving an id present in no incident row
answers success (HTTP 200), not NotFound, and mutates nothing. -/
theorem resolve_unknown_returns_success :
    (handle .resolveIncident env0 storePending adminSess bodyResolveNope 7 "x").status = 200 ∧
    ¬ (handle .resolveIncident env0 storePending adminSess bodyResolveNope 7 "x").status = 404 ∧
    (handle .resolveIncident env0 storePending adminSess bodyResolveNope 7 "x").store = storePending := by
  decide

/-- C3 amended: POST /api/incidents/resolve with an id that exists in
no incident row runs an UPDATE matching zero rows: it mutates no
incident and answers success (200); no NotFound error is produced. -/
theorem resolve_unknown_noop (env : Env) (s : Store) (sess : Session) (b : Body)
    (now : Nat) (newId : String)
    (hauth : sess.isAuthenticated = true) (hadmin : sess.isAdmin = true)
    (hne : jstr b.incidentId ≠ "")
    (hunknown : ∀ i ∈ s.incidents, i.id ≠ jstr b.incidentId) :
    (handle .resolveIncident env s sess b now newId).status = 200 ∧
    (handle .resolveIncident env s sess b now newId).store = s := by
  have hmap := map_resolveUpd_eq_self s.incidents (jstr b.incidentId) now hunknown
  simp [handle, requireAuth, requireAdmin, resolveIncidentHandler, hauth, hadmin,
    hne, baseResp, hmap]

/-- Witness for C3's amended theorem at a concrete store and id. -/
theorem resolve_unknown_noop_witness :
    (handle .resolveIncident env0 storePending adminSess bodyResolveNope 9 "y").status = 200 ∧
    (handle .resolveIncident env0 storePending adminSess bodyResolveNope 9 "y").store = storePending :=
  resolve_unknown_noop env0 storePending adminSess bodyResolveNope 9 "y"
    rfl rfl (by decide) (by decide)

/-- Every route leaves the incidents table unchanged, appends one
fresh-id row, or applies the resolve UPDATE. -/
theorem handle_incidents_shape (ep : Endpoint) (env : Env) (s : Store) (sess : Session)
    (b : Body) (now : Nat) (newId : String) :
    (handle ep env s sess b now newId).store.incidents = s.incidents ∨
    (∃ inc : Incident, (∀ j ∈ s.incidents, j.id ≠ inc.id) ∧
      (handle ep env s sess b now newId).store.incidents = s.incidents ++ [inc]) ∨
    (∃ x t, (handle ep env s sess b now newId).store.incidents =
        s.incidents.map (resolveUpd x t)) := by
  cases ep
  case health => exact Or.inl rfl
  case events => exact Or.inl rfl
  case authLogin =>
    simp only [handle, authLoginHandler]
    split_ifs <;> exact Or.inl rfl
  case authLogout => exact Or.inl rfl
  case authStatus => exact Or.inl rfl
  case adminStatus => exact Or.inl rfl
  case adminLogin =>
    simp only [handle, adminLoginHandler]
    split_ifs <;> exact Or.inl rfl
  case adminLogout => exact Or.inl rfl
  case listRestrooms =>
    simp only [handle, requireAuth]
    split_ifs <;> exact Or.inl rfl
  case listCustodians =>
    simp only [handle, requireAuth]
    split_ifs <;> exact Or.inl rfl
  case listChecks =>
    simp only [handle, requireAuth]
    split_ifs <;> exact Or.inl rfl
  case listIncidents =>
    simp only [handle, requireAuth]
    split_ifs <;> exact Or.inl rfl
  case logCheck =>
    simp only [handle, requireAuth, logCheckHandler]
    split_ifs <;> exact Or.inl rfl
  case reportIncident =>
    simp only [handle, requireAuth, reportIncidentHandler]
    split_ifs with h1 h2 h3
    · exact Or.inl rfl
    · exact Or.inl rfl
    · refine Or.inr (Or.inl ⟨_, ?_, rfl⟩)
      intro j hj hcontra
      apply h3
      simp only [incidentInsertFails, Bool.or_eq_true, List.any_eq_true, beq_iff_eq]
      exact Or.inl (Or.inl ⟨j, hj, hcontra⟩)
    · exact Or.inl rfl
  case resolveIncident =>
    simp only [handle, requireAuth, requireAdmin, resolveIncidentHandler]
    split_ifs
    · exact Or.inl rfl
    · exact Or.inr (Or.inr ⟨_, _, rfl⟩)
    · exact Or.inl rfl
    · exact Or.inl rfl

/-- Counterexample to C2: resolving the already-resolved incident `i1`
again at time 7 overwrites its resolution timestamp (some 5 becomes
some 7) instead of leaving it unchanged. -/
theorem resolve_again_overwrites_resolvedAt :
    storeResolved.incidents.map (fun i => i.resolvedAt) = [some 5] ∧
    storeResolved.incidents.map (fun i => i.pending) = [false] ∧
    (handle .resolveIncident env0 storeResolved adminSess bodyResolveI1 7 "x").store.incidents.map
        (fun i => i.resolvedAt) = [some 7] ∧
    ¬ (handle .resolveIncident env0 storeResolved adminSess bodyResolveI1 7 "x").store.incidents =
        storeResolved.incidents := by
  decide

/-- C2 amended: under every route, a row whose pending flag is false
never reappears with pending true (no false-to-true transition, so the
true-to-false transition happens at most once); the resolve route sets
pending := false and resolvedAt := now atomically on every row matching
the id — hence resolving an already-resolved incident keeps pending
false but overwrites resolvedAt with the new timestamp rather than
leaving it unchanged. -/
theorem pending_transitions :
    (∀ (ep : Endpoint) (env : Env) (s : Store) (sess : Session) (b : Body)
        (now : Nat) (newId : String),
      (s.incidents.map (fun i => i.id)).Nodup →
      ∀ i ∈ s.incidents, i.pending = false →
      ∀ i' ∈ (handle ep env s sess b now newId).store.incidents,
        i'.id = i.id → i'.pending = false) ∧
    (∀ (env : Env) (s : Store) (sess : Session) (b : Body) (now : Nat) (newId : String),
      sess.isAuthenticated = true → sess.isAdmin = true → jstr b.incidentId ≠ "" →
      (handle .resolveIncident env s sess b now newId).store.incidents =
        s.incidents.map (resolveUpd (jstr b.incidentId) now)) := by
  constructor
  · intro ep env s sess b now newId hnodup i hi hip i' hi' hid
    rcases handle_incidents_shape ep env s sess b now newId with h | ⟨inc, hfr, h⟩ | ⟨x, t, h⟩
    · rw [h] at hi'
      have hii : i' = i := List.inj_on_of_nodup_map hnodup hi' hi hid
      rw [hii]; exact hip
    · rw [h] at hi'
      rcases List.mem_append.mp hi' with h1 | h1
      · have hii : i' = i := List.inj_on_of_nodup_map hnodup h1 hi hid
        rw [hii]; exact hip
      · have hii : i' = inc := List.mem_singleton.mp h1
        rw [hii] at hid
        exact absurd hid.symm (hfr i hi)
    · rw [h] at hi'
      rcases List.mem_map.mp hi' with ⟨j, hj, hji⟩
      by_cases hx : j.id = x
      · rw [← hji]; simp [resolveUpd, hx]
      · have hup : resolveUpd x t j = j := by simp [resolveUpd, hx]
        rw [hup] at hji
        rw [← hji] at hid ⊢
        have hii : j = i := List.inj_on_of_nodup_map hnodup hj hi hid
        rw [hii]; exact hip
  · intro env s sess b now newId hauth hadmin hne
    simp [handle, requireAuth, requireAdmin, resolveIncidentHandler, hauth, hadmin, hne]

/-- Witness for C2's amended theorem at a concrete resolve request. -/
theorem pending_transitions_witness :
    incResolved7.pending = false ∧
    (handle .resolveIncident env0 storeResolved adminSess bodyResolveI1 7 "x").store.incidents =
      storeResolved.incidents.map (resolveUpd "i1" 7) :=
  ⟨pending_transitions.1 .resolveIncident env0 storeResolved adminSess bodyResolveI1 7 "x"
      (by decide) incResolved5 (by decide) rfl incResolved7 (by decide) rfl,
   pending_transitions.2 env0 storeResolved adminSess bodyResolveI1 7 "x" rfl rfl (by decide)⟩

/-- The snapshot query returns NULL when the restroom has no checks. -/
theorem lastCheckTimestamp_eq_none (s : Store) (rid : String)
    (h : s.checks.filter (fun c => c.restroomId == rid) = []) :
    lastCheckTimestamp s rid = none := by
  simp [lastCheckTimestamp, h]

/-- Counterexample to C4: reporting an incident with a custodian id
matching no seeded row is not rejected with a 400 ValidationError —
it passes the application-level validation, reaches the INSERT, fails
the enforced foreign-key constraint and comes back as a caught 500
with no row created. -/
theorem reportIncident_ghost_not_400 :
    seedStore.custodians.map Custodian.id =
      ["admin", "shantelle", "jalessa", "joel", "javon", "rey"] ∧
    (handle .reportIncident env0 seedStore authSess bodyIncidentGhost 9 "inc-1").status = 500 ∧
    ¬ (handle .reportIncident env0 seedStore authSess bodyIncidentGhost 9 "inc-1").status = 400 ∧
    (handle .reportIncident env0 seedStore authSess bodyIncidentGhost 9 "inc-1").store = seedStore := by
  decide

/-- C4 amended: POST /api/incidents answers 400 (ValidationError) and
creates no row exactly when one of custodianId, restroomId, description
is missing or empty.  Unknown-but-non-empty ids pass that validation
but make the INSERT fail the runtime-enforced foreign-key constraints:
the route answers 500, not 400, and still creates no row.  When the ids
exist and the primary key is fresh, one row is inserted with 201. -/
theorem reportIncident_validation (env : Env) (s : Store) (sess : Session) (b : Body)
    (now : Nat) (newId : String)
    (hauth : sess.isAuthenticated = true) :
    ((jstr b.custodianId = "" ∨ jstr b.restroomId = "" ∨ jstr b.description = "") →
      (handle .reportIncident env s sess b now newId).status = 400 ∧
      (handle .reportIncident env s sess b now newId).store = s) ∧
    (jstr b.custodianId ≠ "" → jstr b.restroomId ≠ "" → jstr b.description ≠ "" →
      incidentInsertFails s b newId = true →
      (handle .reportIncident env s sess b now newId).status = 500 ∧
      (handle .reportIncident env s sess b now newId).store = s) ∧
    (jstr b.custodianId ≠ "" → jstr b.restroomId ≠ "" → jstr b.description ≠ "" →
      incidentInsertFails s b newId = false →
      (handle .reportIncident env s sess b now newId).status = 201 ∧
      (handle .reportIncident env s sess b now newId).store.incidents =
        s.incidents ++ [newIncidentRow s b now newId]) := by
  refine ⟨?_, ?_, ?_⟩
  · intro hv
    rcases hv with h | h | h <;>
      simp [handle, requireAuth, reportIncidentHandler, hauth, h, baseResp]
  · intro h1 h2 h3 hfail
    simp [handle, requireAuth, reportIncidentHandler, hauth, h1, h2, h3, hfail, baseResp]
  · intro h1 h2 h3 hok
    simp [handle, requireAuth, reportIncidentHandler, hauth, h1, h2, h3, hok, baseResp]

/-- Witness for C4's amended theorem: an empty body is rejected with
400 and no row; a ghost custodian id yields 500 and no row; a full body
by a seeded custodian on a seeded restroom is accepted with 201. -/
theorem reportIncident_validation_witness :
    ((handle .reportIncident env0 seedStore authSess body0 0 "inc-1").status = 400 ∧
      (handle .reportIncident env0 seedStore authSess body0 0 "inc-1").store = seedStore) ∧
    ((handle .reportIncident env0 seedStore authSess bodyIncidentGhost 9 "inc-1").status = 500 ∧
      (handle .reportIncident env0 seedStore authSess bodyIncidentGhost 9 "inc-1").store = seedStore) ∧
    (handle .reportIncident env0 seedStore authSess bodyIncidentJoel 9 "inc-1").status = 201 :=
  ⟨(reportIncident_validation env0 seedStore authSess body0 0 "inc-1" rfl).1 (by decide),
   (reportIncident_validation env0 seedStore authSess bodyIncidentGhost 9 "inc-1" rfl).2.1
      (by decide) (by decide) (by decide) (by decide),
   ((reportIncident_validation env0 seedStore authSess bodyIncidentJoel 9 "inc-1" rfl).2.2
      (by decide) (by decide) (by decide) (by decide)).1⟩

/-- Counterexample to C5: the incidents table has no lastCheckedBy
column, so the persisted record cannot contain the checking custodian;
a concrete successful report persists exactly one row whose only
snapshot field is lastCheckedAt. -/
theorem incidents_table_lacks_lastCheckedBy :
    incidentsColumns.contains "lastCheckedBy" = false ∧
    incidentsColumns.contains "lastCheckedAt" = true ∧
    (handle .reportIncident env0 storeWithCheck authSess bodyIncidentJoel 9 "inc-1").store.incidents =
      [{ id := "inc-1", custodianId := "joel", restroomId := "g-wing",
         description := "mess", severity := "medium", timestamp := 9,
         pending := true, resolvedAt := none, lastCheckedAt := some 3 }] := by
  decide

/-- C5 amended: every successful report persists one incident row with
pending = true and lastCheckedAt equal to the restroom's most recent
check timestamp (NULL when the restroom has no checks); the incidents
table has no lastCheckedBy column, so no checking-custodian snapshot is
persisted (it is only computed for the notification email). -/
theorem reportIncident_snapshot (env : Env) (s : Store) (sess : Session) (b : Body)
    (now : Nat) (newId : String)
    (hauth : sess.isAuthenticated = true)
    (hc : jstr b.custodianId ≠ "") (hr : jstr b.restroomId ≠ "")
    (hd : jstr b.description ≠ "")
    (hok : incidentInsertFails s b newId = false) :
    (handle .reportIncident env s sess b now newId).status = 201 ∧
    (handle .reportIncident env s sess b now newId).store.incidents =
      s.incidents ++ [newIncidentRow s b now newId] ∧
    (newIncidentRow s b now newId).pending = true ∧
    (newIncidentRow s b now newId).lastCheckedAt =
      lastCheckTimestamp s (jstr b.restroomId) ∧
    (s.checks.filter (fun c => c.restroomId == jstr b.restroomId) = [] →
      (newIncidentRow s b now newId).lastCheckedAt = none) ∧
    incidentsColumns.contains "lastCheckedBy" = false := by
  refine ⟨?_, ?_, rfl, rfl, ?_, by decide⟩
  · simp [handle, requireAuth, reportIncidentHandler, hauth, hc, hr, hd, hok, baseResp]
  · simp [handle, requireAuth, reportIncidentHandler, hauth, hc, hr, hd, hok, baseResp]
  · intro h
    exact lastCheckTimestamp_eq_none s (jstr b.restroomId) h

/-- Witness for C5's amended theorem on a store with a prior check. -/
theorem reportIncident_snapshot_witness :
    (handle .reportIncident env0 storeWithCheck authSess bodyIncidentJoel 9 "inc-2").status = 201 ∧
    (newIncidentRow storeWithCheck bodyIncidentJoel 9 "inc-2").lastCheckedAt =
      lastCheckTimestamp storeWithCheck "g-wing" :=
  ⟨(reportIncident_snapshot env0 storeWithCheck authSess bodyIncidentJoel 9 "inc-2"
      rfl (by decide) (by decide) (by decide) (by decide)).1,
   (reportIncident_snapshot env0 storeWithCheck authSess bodyIncidentJoel 9 "inc-2"
      rfl (by decide) (by decide) (by decide) (by decide)).2.2.2.1⟩

/-- C8: for every mail configuration and send outcome, a valid report
persists its incident row and answers 201 with the created id; the
email is best-effort, and no send is attempted when mail is
unconfigured. -/
theorem reportIncident_email_best_effort (env : Env) (s : Store) (sess : Session)
    (b : Body) (now : Nat) (newId : String)
    (hauth : sess.isAuthenticated = true)
    (hc : jstr b.custodianId ≠ "") (hr : jstr b.restroomId ≠ "")
    (hd : jstr b.description ≠ "")
    (hok : incidentInsertFails s b newId = false) :
    (handle .reportIncident env s sess b now newId).status = 201 ∧
    (handle .reportIncident env s sess b now newId).returnedId = some newId ∧
    (handle .reportIncident env s sess b now newId).store.incidents =
      s.incidents ++ [newIncidentRow s b now newId] ∧
    (env.mailConfigured = false →
      (handle .reportIncident env s sess b now newId).email = .notAttempted) := by
  refine ⟨?_, ?_, ?_, ?_⟩ <;>
    simp [handle, requireAuth, reportIncidentHandler, hauth, hc, hr, hd, hok,
      baseResp, sendIncidentEmail]
  intro hm
  simp [hm]

/-- Witness for C8 with mail configured and the send failing: the
incident is still persisted and 201 returned. -/
theorem reportIncident_email_best_effort_witness :
    (handle .reportIncident envFail seedStore authSess bodyIncidentJoel 9 "inc-1").status = 201 ∧
    (handle .reportIncident envFail seedStore authSess bodyIncidentJoel 9 "inc-1").returnedId =
      some "inc-1" :=
  ⟨(reportIncident_email_best_effort envFail seedStore authSess bodyIncidentJoel 9 "inc-1"
      rfl (by decide) (by decide) (by decide) (by decide)).1,
   (reportIncident_email_best_effort envFail seedStore authSess bodyIncidentJoel 9 "inc-1"
      rfl (by decide) (by decide) (by decide) (by decide)).2.1⟩

/-- Counterexample to C6: GET /api/events and the two logout routes
carry no auth middleware — an unauthenticated request gets 200, not
401, from each of them. -/
theorem open_endpoints_not_401 :
    (handle .events env0 seedStore unauthSess body0 0 "x").status = 200 ∧
    (handle .authLogout env0 seedStore unauthSess body0 0 "x").status = 200 ∧
    (handle .adminLogout env0 seedStore unauthSess body0 0 "x").status = 200 ∧
    ¬ (handle .events env0 seedStore unauthSess body0 0 "x").status = 401 := by
  decide

/-- C6 amended: unauthenticated requests receive 401 with no mutation
from exactly the seven guarded routes (the four list routes, log-check,
report-incident, resolve); /health, /events, the two logout routes, the
two status routes and the two login routes carry no auth guard — in
particular GET /events and the logouts answer 200 to unauthenticated
callers.  An authenticated session without the admin flag receives 403
from resolve with no mutation. -/
theorem auth_guard_coverage (env : Env) (s : Store) (sess : Session) (b : Body)
    (now : Nat) (newId : String) :
    (sess.isAuthenticated = false →
      (∀ ep ∈ guardedEndpoints,
        (handle ep env s sess b now newId).status = 401 ∧
        (handle ep env s sess b now newId).store = s) ∧
      (handle .health env s sess b now newId).status = 200 ∧
      (handle .events env s sess b now newId).status = 200 ∧
      (handle .authLogout env s sess b now newId).status = 200 ∧
      (handle .adminLogout env s sess b now newId).status = 200) ∧
    (sess.isAuthenticated = true → sess.isAdmin = false →
      (handle .resolveIncident env s sess b now newId).status = 403 ∧
      (handle .resolveIncident env s sess b now newId).store = s) := by
  constructor
  · intro hun
    refine ⟨?_, rfl, rfl, rfl, rfl⟩
    intro ep hep
    simp only [guardedEndpoints, List.mem_cons, List.mem_singleton,
      List.not_mem_nil, or_false] at hep
    rcases hep with rfl | rfl | rfl | rfl | rfl | rfl | rfl <;>
      simp [handle, requireAuth, hun, baseResp]
  · intro hauth hadmin
    simp [handle, requireAuth, requireAdmin, hauth, hadmin, baseResp]

/-- Witness for C6's amended theorem: log-check unauthenticated is 401
with no mutation; resolve without the admin flag is 403 with no
mutation. -/
theorem auth_guard_coverage_witness :
    ((handle .logCheck env0 seedStore unauthSess bodyCheckJoel 0 "x").status = 401 ∧
      (handle .logCheck env0 seedStore unauthSess bodyCheckJoel 0 "x").store = seedStore) ∧
    ((handle .resolveIncident env0 storePending authSess bodyResolveI1 0 "x").status = 403 ∧
      (handle .resolveIncident env0 storePending authSess bodyResolveI1 0 "x").store = storePending) :=
  ⟨((auth_guard_coverage env0 seedStore unauthSess bodyCheckJoel 0 "x").1 rfl).1
      .logCheck (by decide),
   (auth_guard_coverage env0 storePending authSess bodyResolveI1 0 "x").2 rfl rfl⟩

/-- The descending comparator is transitive. -/
theorem tsGE_trans (a b c : Check) (hab : tsGE a b = true) (hbc : tsGE b c = true) :
    tsGE a c = true := by
  simp only [tsGE, decide_eq_true_eq] at *
  omega

/-- The descending comparator is total. -/
theorem tsGE_total (a b : Check) : (tsGE a b || tsGE b a) = true := by
  simp only [tsGE, Bool.or_eq_true, decide_eq_true_eq]
  omega

/-- The full sorted row list of GET /api/checks is ordered newest
first. -/
theorem mergeSort_sorted_ts (s : Store) :
    ((joinedChecks s).mergeSort tsGE).Sorted
      (fun a b : Check => b.timestamp ≤ a.timestamp) := by
  have h := List.sorted_mergeSort
    (fun a b c => tsGE_trans a b c) (fun a b => tsGE_total a b) (joinedChecks s)
  refine h.imp ?_
  intro a b hab
  simpa [tsGE] using hab

/-- Counterexample to C9: a check row whose custodian id matches no
custodian row is dropped by the inner join, so the returned list can be
shorter than min(100, number of check rows). -/
theorem getChecks_join_drops_dangling :
    storeDangling.checks.length = 1 ∧
    (handle .listChecks env0 storeDangling authSess body0 0 "x").payloadChecks = [] ∧
    ¬ (handle .listChecks env0 storeDangling authSess body0 0 "x").payloadChecks.length =
        min 100 storeDangling.checks.length := by
  have hj : joinedChecks storeDangling = [] := by decide
  have hp : (handle .listChecks env0 storeDangling authSess body0 0 "x").payloadChecks = [] := by
    simp [handle, requireAuth, authSess, getChecksHandler, getChecksList, hj, baseResp]
  refine ⟨rfl, hp, ?_⟩
  rw [hp]
  decide

/-- C9 amended: GET /api/checks returns the joined check rows (those
whose custodian and restroom ids exist) ordered by timestamp
descending, truncated to 100; its length is min(100, number of joined
rows) and every returned row's timestamp is at least that of every
joined row not returned.  Check rows with dangling references are
excluded by the inner joins. -/
theorem getChecks_ordering (env : Env) (s : Store) (sess : Session) (b : Body)
    (now : Nat) (newId : String)
    (hauth : sess.isAuthenticated = true) :
    (handle .listChecks env s sess b now newId).payloadChecks = getChecksList s ∧
    (getChecksList s).Sorted (fun a b : Check => b.timestamp ≤ a.timestamp) ∧
    (getChecksList s).length = min 100 (joinedChecks s).length ∧
    (∀ c ∈ getChecksList s, ∀ c' ∈ joinedChecks s, c' ∉ getChecksList s →
      c'.timestamp ≤ c.timestamp) := by
  refine ⟨?_, ?_, ?_, ?_⟩
  · simp [handle, requireAuth, hauth, getChecksHandler, baseResp]
  · exact List.Pairwise.sublist (List.take_sublist 100 _) (mergeSort_sorted_ts s)
  · simp [getChecksList, List.length_take,
      List.Perm.length_eq (List.mergeSort_perm (joinedChecks s) tsGE)]
  · intro c hc c' hc' hnot
    simp only [getChecksList] at hc hnot
    have hm : c' ∈ (joinedChecks s).mergeSort tsGE :=
      (List.Perm.mem_iff (List.mergeSort_perm (joinedChecks s) tsGE)).mpr hc'
    have hsplit : c' ∈ List.take 100 ((joinedChecks s).mergeSort tsGE) ∨
        c' ∈ List.drop 100 ((joinedChecks s).mergeSort tsGE) := by
      rw [← List.mem_append, List.take_append_drop]
      exact hm
    have hd : c' ∈ List.drop 100 ((joinedChecks s).mergeSort tsGE) := by
      rcases hsplit with h | h
      · exact absurd h hnot
      · exact h
    exact (mergeSort_sorted_ts s).rel_of_mem_take_of_mem_drop hc hd

/-- Witness for C9's amended theorem on a store with one joined check. -/
theorem getChecks_ordering_witness :
    (handle .listChecks env0 storeWithCheck authSess body0 0 "x").payloadChecks =
      getChecksList storeWithCheck ∧
    (getChecksList storeWithCheck).length = min 100 (joinedChecks storeWithCheck).length :=
  ⟨(getChecks_ordering env0 storeWithCheck authSess body0 0 "x" rfl).1,
   (getChecks_ordering env0 storeWithCheck authSess body0 0 "x" rfl).2.2.1⟩

/-- Counterexample to C10: logging a check with ids matching no seeded
row does not insert a row and return 201 — the INSERT fails the
runtime-enforced foreign-key constraints and the route answers a
caught 500 with the store unchanged. -/
theorem logCheck_ghost_rejected :
    (handle .logCheck env0 seedStore authSess bodyCheckGhost 5 "check-9").status = 500 ∧
    ¬ (handle .logCheck env0 seedStore authSess bodyCheckGhost 5 "check-9").status = 201 ∧
    (handle .logCheck env0 seedStore authSess bodyCheckGhost 5 "check-9").store = seedStore := by
  decide

/-- C10 amended: POST /api/checks performs no application-level
existence validation of its ids — with non-empty id strings and no
pending incident, an unknown custodian or restroom id passes the 400
validation and the incident gate and reaches the INSERT — but the
declared foreign keys are enforced at runtime by the bundled SQLite, so
the INSERT throws: the route answers 500 (not 400, not 201) and inserts
no row, and this route cannot create a check with a dangling
reference. -/
theorem logCheck_fk_enforced (env : Env) (s : Store) (sess : Session) (b : Body)
    (now : Nat) (newId : String)
    (hauth : sess.isAuthenticated = true)
    (hc : jstr b.custodianId ≠ "") (hr : jstr b.restroomId ≠ "")
    (hnopend : (s.incidents.any (fun i => i.restroomId == jstr b.restroomId && i.pending)) = false)
    (hghost : (s.custodians.any (fun cu => cu.id == jstr b.custodianId)) = false ∨
              (s.restrooms.any (fun r => r.id == jstr b.restroomId)) = false) :
    (handle .logCheck env s sess b now newId).status = 500 ∧
    ¬ (handle .logCheck env s sess b now newId).status = 400 ∧
    (handle .logCheck env s sess b now newId).store = s := by
  have hfail : checkInsertFails s b newId = true := by
    rcases hghost with h | h <;> simp [checkInsertFails, h]
  simp [handle, requireAuth, logCheckHandler, hauth, hc, hr, hnopend, hfail, baseResp]

/-- Witness for C10's amended theorem: the ghost-id check on the seeded
store answers 500 and mutates nothing. -/
theorem logCheck_fk_enforced_witness :
    (handle .logCheck env0 seedStore authSess bodyCheckGhost 5 "check-9").status = 500 ∧
    ¬ (handle .logCheck env0 seedStore authSess bodyCheckGhost 5 "check-9").status = 400 ∧
    (handle .logCheck env0 seedStore authSess bodyCheckGhost 5 "check-9").store = seedStore :=
  logCheck_fk_enforced env0 seedStore authSess bodyCheckGhost 5 "check-9"
    rfl (by decide) (by decide) rfl (Or.inl (by decide))

end Hygieia
